import Mathlib

/-!
Verification development for the `real-estate-scrapers` repository.

Shallow embedding conventions:
* Python `float` values are modelled as rationals (`ℚ`); the numeric strings
  handled by this code base are plain decimal literals, which are exact.
* Python `None` is modelled as `Option.none`; a value of type `Optional[T]`
  becomes `Option T`.
* Python runtime dictionaries (the `TypedDict`s of `models/models.py` are
  plain `dict`s at runtime) are modelled as structures in which every
  top-level key of interest is wrapped in an *outer* `Option` recording
  whether the key is present at all: `dct[k]` on an absent key raises
  `KeyError`, which is modelled by `Except`.
* Python strings are modelled as `String` / `List Char`; the character-level
  operations used by the code (`str.replace` with one-character patterns,
  whitespace `str.split`, membership tests) are given explicit executable
  models on `List Char`.
* Exceptions (`KeyError`, `IndexError`, `ValueError`, `scrapy.DropItem`)
  are modelled by the error type `PyErr`; a fallible Python callable becomes
  a Lean function into `Except PyErr _`.
-/

set_option autoImplicit false
set_option maxRecDepth 100000

namespace RealEstateScrapers

deriving instance DecidableEq for Except

/-- The exceptions thrown by the code under consideration. -/
inductive PyErr where
  | keyError (key : String)
  | indexError
  | valueError (msg : String)
  | dropItem (msg : String)
  deriving Repr, DecidableEq

/-! ### Character-level string utilities (models of the Python primitives) -/

/-- Leading decimal digits of a character list together with the rest:
`takeDigits cs = (cs.takeWhile Char.isDigit, cs.dropWhile Char.isDigit)`. -/
def takeDigits : List Char → List Char × List Char
  | [] => ([], [])
  | c :: cs =>
    if c.isDigit then
      let p := takeDigits cs
      (c :: p.1, p.2)
    else ([], c :: cs)

/-- Numeric value of a digit string, as `int`/`float` conversion reads it. -/
def digitsVal (ds : List Char) : ℕ :=
  ds.foldl (fun a c => 10 * a + (c.toNat - 48)) 0

/-- Does `cs` start with the pattern `pat`? (model of `str.startswith`). -/
def startsWithChars (cs pat : List Char) : Bool :=
  match cs, pat with
  | _, [] => true
  | [], _ :: _ => false
  | c :: cs, p :: ps => c = p && startsWithChars cs ps

/-- Substring membership: model of Python's `pat in s` for strings. -/
def containsSub (pat : List Char) : List Char → Bool
  | [] => startsWithChars [] pat
  | c :: cs => startsWithChars (c :: cs) pat || containsSub pat cs

/-- Model of Python's whitespace `str.split()`: split on runs of whitespace,
dropping empty tokens. -/
def pySplitWs : List Char → List (List Char)
  | [] => []
  | c :: cs =>
    if c.isWhitespace then pySplitWs cs
    else
      have : (cs.dropWhile (fun ch => !ch.isWhitespace)).length < cs.length + 1 := by
        have h := (List.dropWhile_sublist (l := cs) (p := fun ch => !ch.isWhitespace)).length_le
        omega
      (c :: cs.takeWhile (fun ch => !ch.isWhitespace)) ::
        pySplitWs (cs.dropWhile (fun ch => !ch.isWhitespace))
termination_by cs => cs.length

/-- Model of Python's `str.split(sep)` for a one-character separator. -/
def splitOnChar (sep : Char) : List Char → List (List Char)
  | [] => [[]]
  | c :: rest =>
    let r := splitOnChar sep rest
    if c = sep then [] :: r
    else
      match r with
      | [] => [[c]]
      | g :: gs => (c :: g) :: gs

/-! ### Model of Python `float(...)` on decimal literals

`pyFloat?` models `float(s)` for decimal literals: an optional sign, an
integer part and/or a fractional part separated by `.`, and an optional
decimal exponent.  (It does not model whitespace padding, `_` digit
grouping, or `inf`/`nan`; no string manipulated by this repository uses
those forms.)  The result is the exact rational value of the literal. -/

/-- Optional leading sign: returns (isNegative, rest). -/
def parseSign (cs : List Char) : Bool × List Char :=
  match cs with
  | [] => (false, [])
  | c :: rest =>
    if c = '-' then (true, rest)
    else if c = '+' then (false, rest)
    else (false, c :: rest)

/-- Optional exponent suffix. `[]` means exponent `0`; a malformed suffix is
a parse failure. -/
def parseExp (cs : List Char) : Option ℤ :=
  match cs with
  | [] => some 0
  | c :: rest =>
    if c = 'e' ∨ c = 'E' then
      let s := parseSign rest
      let p := takeDigits s.2
      if p.1.isEmpty || !p.2.isEmpty then none
      else some (if s.1 then -(digitsVal p.1 : ℤ) else (digitsVal p.1 : ℤ))
    else none

/-- Model of Python `float(s)` on decimal literals; `none` when `float`
raises `ValueError`. -/
def pyFloat? (cs : List Char) : Option ℚ :=
  let s := parseSign cs
  let ip := takeDigits s.2
  match ip.2 with
  | '.' :: cs3 =>
    let fp := takeDigits cs3
    if ip.1.isEmpty && fp.1.isEmpty then none
    else
      match parseExp fp.2 with
      | none => none
      | some e =>
        let mant : ℚ := (digitsVal ip.1 : ℚ) + (digitsVal fp.1 : ℚ) / (10 : ℚ) ^ fp.1.length
        some ((if s.1 then -mant else mant) * (10 : ℚ) ^ e)
  | rest =>
    if ip.1.isEmpty then none
    else
      match parseExp rest with
      | none => none
      | some e =>
        some ((if s.1 then -(digitsVal ip.1 : ℚ) else (digitsVal ip.1 : ℚ)) * (10 : ℚ) ^ e)

/-- Model of Python `int(s)`: optional sign and digits, else `ValueError`. -/
def pyInt (cs : List Char) : Except PyErr ℤ :=
  let s := parseSign cs
  let p := takeDigits s.2
  if p.1.isEmpty || !p.2.isEmpty then
    .error (.valueError "invalid literal for int() with base 10")
  else .ok (if s.1 then -(digitsVal p.1 : ℤ) else (digitsVal p.1 : ℤ))

/-! ### `format_checker.py` -/

namespace FormatChecker

/-- `FormatChecker.is_numeric`: `float(string)` succeeds. -/
def is_numeric (s : String) : Bool :=
  (pyFloat? s.data).isSome

/-- `FormatChecker.contains_number`: `re.search(r"\d", string)` matched. -/
def contains_number (s : String) : Bool :=
  s.data.any Char.isDigit

/-- The first maximal run of digits in the text; model of
`re.search(r"\d+", string)` returning `match.group()`. -/
def firstDigitRun : List Char → Option (List Char)
  | [] => none
  | c :: cs =>
    if c.isDigit then some (c :: (takeDigits cs).1)
    else firstDigitRun cs

/-- `FormatChecker.extract_year`: `int` of the first digit run, or
`ValueError` when `re.search(r"\d+", string)` finds nothing. -/
def extract_year (s : String) : Except PyErr ℕ :=
  match firstDigitRun s.data with
  | none => .error (.valueError ("Could not extract year from string: " ++ s))
  | some ds => .ok (digitsVal ds)

end FormatChecker

/-! ### `models/models.py`: the `TypedDict`s making up a `RealEstate` record

`datetime` values are modelled abstractly by their POSIX timestamp as a
rational number; `datetime.fromtimestamp` is then the identity on that
representation. -/

/-- A `datetime` value, identified with its POSIX timestamp. -/
abbrev PyDateTime := ℚ

/-- `Location` dict. -/
structure Location where
  country : String
  city : String
  zip_code : String
  deriving Repr, DecidableEq

/-- `Price` dict. -/
structure Price where
  amount : ℚ
  unit : String
  deriving Repr, DecidableEq

/-- `EnergyData` dict. -/
structure EnergyData where
  energy_class : Option String
  value : Option ℚ
  deriving Repr, DecidableEq

/-- `EPCData` dict. -/
structure EPCData where
  heating_demand : Option EnergyData
  energy_efficiency : Option EnergyData
  epc_pdf_url : Option String
  epc_issued_date : Option PyDateTime
  deriving Repr, DecidableEq

/-- `RealEstateMetadata` dict. -/
structure RealEstateMetadata where
  date_built : Option PyDateTime
  type : String
  deriving Repr, DecidableEq

/-- `ScrapeMetadata` dict. -/
structure ScrapeMetadata where
  url : String
  timestamp : ℚ
  deriving Repr, DecidableEq

/-- A `RealEstate` record as it exists at runtime: a plain `dict`.  Each
field's *outer* `Option` records whether the corresponding top-level key is
present in the dict at all (`none` = the key is absent, so an item lookup
raises `KeyError`).  Besides the seven keys that `RealEstatePage.to_item`
creates, the dict may carry top-level `"heating_demand"` /
`"energy_efficiency"` keys, because `RealEstateDBItem.from_dict` looks those
up at the top level. -/
structure RealEstate where
  location : Option Location
  listing_type : Option String
  area : Option (Option ℚ)
  price : Option (Option Price)
  epc_data : Option EPCData
  heating_demand : Option (Option EnergyData)
  energy_efficiency : Option (Option EnergyData)
  item_metadata : Option RealEstateMetadata
  scrape_metadata : Option ScrapeMetadata
  deriving Repr, DecidableEq

/-- `dct[key]`: the value when the key is present, `KeyError` otherwise. -/
def getKey {α : Type} (key : String) : Option α → Except PyErr α
  | none => .error (.keyError key)
  | some v => .ok v

/-! ### `models/db_models.py`: the SQLAlchemy row type -/

/-- A persisted `real_estate_items` row (the mapped attribute values of a
`RealEstateDBItem` instance, ignoring the autogenerated `id`). -/
structure RealEstateDBItem where
  location_country : String
  location_city : String
  location_zip_code : String
  listing_type : String
  area : Option ℚ
  price_amount : Option ℚ
  price_unit : Option String
  heating_demand_energy_class : Option String
  heating_demand_value : Option ℚ
  energy_efficiency_energy_class : Option String
  energy_efficiency_value : Option ℚ
  scrape_metadata_url : String
  scrape_metadata_timestamp : PyDateTime
  deriving Repr, DecidableEq

/-- A SQLAlchemy `Column(...)` declaration of `RealEstateDBItem`: its
attribute name and whether `unique=True` was passed. -/
structure ColumnDecl where
  name : String
  primary_key : Bool
  unique : Bool
  deriving Repr, DecidableEq

/-- The column declarations of `RealEstateDBItem`, in source order.  No
column in `db_models.py` passes `unique=True`. -/
def RealEstateDBItem.columns : List ColumnDecl :=
  [⟨"id", true, false⟩,
   ⟨"location_country", false, false⟩,
   ⟨"location_city", false, false⟩,
   ⟨"location_zip_code", false, false⟩,
   ⟨"listing_type", false, false⟩,
   ⟨"area", false, false⟩,
   ⟨"price_amount", false, false⟩,
   ⟨"price_unit", false, false⟩,
   ⟨"heating_demand_energy_class", false, false⟩,
   ⟨"heating_demand_value", false, false⟩,
   ⟨"energy_efficiency_energy_class", false, false⟩,
   ⟨"energy_efficiency_value", false, false⟩,
   ⟨"scrape_metadata_url", false, false⟩,
   ⟨"scrape_metadata_timestamp", false, false⟩]

/-- Python truthiness chain `opt and opt["value-ish float"] or None` applied
to an already-looked-up optional float: `None`/`0.0` collapse to `None`. -/
def pyAndOrQ (x : Option ℚ) : Option ℚ :=
  match x with
  | none => none
  | some v => if v = 0 then none else some v

/-- Python truthiness chain for an optional string: `None`/`""` collapse to
`None`. -/
def pyAndOrStr (x : Option String) : Option String :=
  match x with
  | none => none
  | some v => if v = "" then none else some v

/-- `RealEstateDBItem.from_dict`.  Each keyword argument of the constructor
call evaluates `dct[...]` item lookups; the lookups happen in the textual
order of the source, and the first absent key raises `KeyError`.  A non-empty
`Price` / `EnergyData` dict is always truthy, so
`dct["price"] and dct["price"]["amount"] or None` yields `None` exactly when
the price is `None` or its amount is the falsy `0.0` (resp. for strings, the
empty string). -/
def RealEstateDBItem.from_dict (dct : RealEstate) : Except PyErr RealEstateDBItem := do
  let location ← getKey "location" dct.location
  let listing_type ← getKey "listing_type" dct.listing_type
  let area ← getKey "area" dct.area
  let price ← getKey "price" dct.price
  let heating_demand ← getKey "heating_demand" dct.heating_demand
  let energy_efficiency ← getKey "energy_efficiency" dct.energy_efficiency
  let scrape_metadata ← getKey "scrape_metadata" dct.scrape_metadata
  .ok
    { location_country := location.country
      location_city := location.city
      location_zip_code := location.zip_code
      listing_type := listing_type
      area := area
      price_amount := pyAndOrQ (price.map Price.amount)
      price_unit := pyAndOrStr (price.map Price.unit)
      heating_demand_energy_class := pyAndOrStr (heating_demand.bind EnergyData.energy_class)
      heating_demand_value := pyAndOrQ (heating_demand.bind EnergyData.value)
      energy_efficiency_energy_class := pyAndOrStr (energy_efficiency.bind EnergyData.energy_class)
      energy_efficiency_value := pyAndOrQ (energy_efficiency.bind EnergyData.value)
      scrape_metadata_url := scrape_metadata.url
      scrape_metadata_timestamp := scrape_metadata.timestamp }

/-! ### `items.py`: `RealEstatePage.to_item` -/

/-- The extraction results of one concrete `RealEstatePage` for one detail
page: the values of the abstract properties that `to_item` reads, plus the
page's own `url` and the `datetime.now()` timestamp taken in `to_item`. -/
structure RealEstatePage where
  country : String
  city : String
  zip_code : String
  listing_type : String
  area : Option ℚ
  price_amount : Option ℚ
  price_unit : String
  heating_demand : Option EnergyData
  energy_efficiency : Option EnergyData
  epc_pdf_url : Option String
  epc_issued_date : Option PyDateTime
  date_of_building : Option PyDateTime
  object_type : String
  url : String
  now_timestamp : ℚ
  deriving Repr, DecidableEq

/-- `RealEstatePage.to_item`.  The produced dict has exactly the seven keys
of the `RealEstate` constructor call; in particular `heating_demand` and
`energy_efficiency` live only inside the nested `epc_data` dict, never at
the top level.  `price` is `self.price_amount and Price(...) or None`, so a
`None` or falsy `0.0` amount yields `price=None`. -/
def RealEstatePage.to_item (p : RealEstatePage) : RealEstate :=
  { location := some ⟨p.country, p.city, p.zip_code⟩
    listing_type := some p.listing_type
    area := some p.area
    price := some
      (match p.price_amount with
       | none => none
       | some a => if a = 0 then none else some ⟨a, p.price_unit⟩)
    epc_data := some ⟨p.heating_demand, p.energy_efficiency, p.epc_pdf_url, p.epc_issued_date⟩
    heating_demand := none
    energy_efficiency := none
    item_metadata := some ⟨p.date_of_building, p.object_type⟩
    scrape_metadata := some ⟨p.url, p.now_timestamp⟩ }

/-! ### `pipelines/postgres_pipeline.py` -/

/-- The storage session owned by `PostgresPipeline`: `session.add` appends
to the pending buffer, `session.commit` flushes the buffer to storage as
one committed batch. -/
structure DBSession where
  pending : List RealEstateDBItem
  committed : List (List RealEstateDBItem)
  deriving Repr, DecidableEq

/-- `session.add(db_item)`. -/
def DBSession.add (s : DBSession) (x : RealEstateDBItem) : DBSession :=
  { s with pending := s.pending ++ [x] }

/-- `session.commit()`: the pending buffer becomes one committed batch. -/
def DBSession.commit (s : DBSession) : DBSession :=
  { pending := [], committed := s.committed ++ [s.pending] }

/-- `PostgresPipeline` state: the item counter and the session. -/
structure PostgresPipeline where
  num_items : ℕ
  session : DBSession
  deriving Repr, DecidableEq

/-- `PostgresPipeline.batch_size`. -/
def PostgresPipeline.batch_size : ℕ := 100

/-- A freshly constructed pipeline (`__init__`): counter `0`, empty session. -/
def PostgresPipeline.init : PostgresPipeline :=
  { num_items := 0, session := { pending := [], committed := [] } }

/-- `PostgresPipeline.process_item`: increment the counter, convert the item
with `from_dict` (whose exception propagates), `session.add` it, and
`session.commit()` when the counter is a multiple of the batch size.  The
result pairs the new pipeline state with the returned item (or the raised
exception). -/
def PostgresPipeline.process_item (p : PostgresPipeline) (item : RealEstate) :
    PostgresPipeline × Except PyErr RealEstate :=
  let n := p.num_items + 1
  match RealEstateDBItem.from_dict item with
  | .error e => ({ p with num_items := n }, .error e)
  | .ok db_item =>
    let s := p.session.add db_item
    let s := if n % PostgresPipeline.batch_size = 0 then s.commit else s
    ({ num_items := n, session := s }, .ok item)

/-- `PostgresPipeline.close_spider`: commit the remaining items, then
release the connection.  The session as of the final commit is returned. -/
def PostgresPipeline.close_spider (p : PostgresPipeline) : DBSession :=
  p.session.commit

/-- Feeding a list of items one by one through `process_item`. -/
def PostgresPipeline.processAll (p : PostgresPipeline) (items : List RealEstate) :
    PostgresPipeline :=
  items.foldl (fun st it => (st.process_item it).1) p

/-! ### `pipelines/duplicates_pipeline.py` -/

/-- `DuplicatesPipeline` state: the set of already-scraped URLs fetched from
storage once at construction. -/
structure DuplicatesPipeline where
  item_urls_seen : List String
  deriving Repr, DecidableEq

/-- `DuplicatesPipeline.__fetch_scraped_item_urls`: the set of
`scrape_metadata_url` values of all rows currently in storage. -/
def DuplicatesPipeline.fetch_scraped_item_urls (rows : List RealEstateDBItem) : List String :=
  (rows.map RealEstateDBItem.scrape_metadata_url).dedup

/-- Constructing the pipeline loads the seen-URL set from storage. -/
def DuplicatesPipeline.ofStorage (rows : List RealEstateDBItem) : DuplicatesPipeline :=
  { item_urls_seen := DuplicatesPipeline.fetch_scraped_item_urls rows }

/-- `DuplicatesPipeline.process_item`: raise `DropItem` when the item's
`scrape_metadata` URL is in the seen set, otherwise return the item
unchanged.  The pipeline state is returned alongside to record that it is
not modified. -/
def DuplicatesPipeline.process_item (pl : DuplicatesPipeline) (item : RealEstate) :
    DuplicatesPipeline × Except PyErr RealEstate :=
  match getKey "scrape_metadata" item.scrape_metadata with
  | .error e => (pl, .error e)
  | .ok sm =>
    if sm.url ∈ pl.item_urls_seen then
      (pl, .error (.dropItem ("Real estate item already scraped in a previous run: " ++ sm.url)))
    else
      (pl, .ok item)

/-! ### `concrete_items/__init__.py`: adapter discovery -/

/-- A Python class object as far as `issubclass` / identity are concerned:
its name plus the names of all its proper ancestors. -/
structure PyClass where
  name : String
  ancestors : List String
  deriving Repr, DecidableEq

/-- `issubclass(cls, abstract)`: reflexivity or ancestry (class identity is
by name in this model). -/
def issubclass (cls abstract : PyClass) : Bool :=
  cls.name = abstract.name || abstract.name ∈ cls.ancestors

/-- `_get_concrete_class(class_tuples, abstract_class)`: scan the module's
member classes in order and return the first proper subclass of
`abstract_class`; raise `ValueError` when none is found. -/
def getConcreteClass (class_tuples : List (String × PyClass)) (abstract_class : PyClass) :
    Except PyErr PyClass :=
  match class_tuples with
  | [] =>
    .error (.valueError ("No concrete implementation found for " ++ abstract_class.name))
  | (_, cls) :: rest =>
    if issubclass cls abstract_class && cls != abstract_class then .ok cls
    else getConcreteClass rest abstract_class

/-- The abstract `RealEstateHomePage` class of `items.py`. -/
def homePageAbstract : PyClass := ⟨"RealEstateHomePage", ["WebPage"]⟩

/-- The abstract `RealEstateListPage` class of `items.py`. -/
def listPageAbstract : PyClass := ⟨"RealEstateListPage", ["WebPage"]⟩

/-- The abstract `RealEstatePage` class of `items.py`. -/
def pageAbstract : PyClass := ⟨"RealEstatePage", ["ItemWebPage", "WebPage"]⟩

/-- The registration step of the module loop in `concrete_items/__init__.py`
for one adapter module: locate the concrete implementation of each of the
three page roles; a raised `ValueError` propagates out of the package import
and aborts startup. -/
def registerModule (classes : List (String × PyClass)) :
    Except PyErr (PyClass × PyClass × PyClass) := do
  let home_page_class ← getConcreteClass classes homePageAbstract
  let list_page_class ← getConcreteClass classes listPageAbstract
  let page_class ← getConcreteClass classes pageAbstract
  .ok (home_page_class, list_page_class, page_class)

/-! ### `concrete_items/realo_be.py` -/

namespace RealoBe

/-- `RealoBeRealEstateListPage.real_estate_list_urls_paginated`.  Inputs:
the page's `self.url` and the optional text matched by the
`totalResultsContainer` XPath query.  Guard: an already-paginated URL
(containing `"?page="`) yields no further pagination; `int(...)` on the
first whitespace token (dots stripped) may raise `ValueError`, and `[0]` on
an empty split result raises `IndexError`. -/
def real_estate_list_urls_paginated (url : String) (match_number_text : Option String) :
    Except PyErr (List String) :=
  if containsSub "?page=".data url.data then .ok []
  else
    match match_number_text with
    | none => .ok []
    | some t =>
      if t = "" then .ok []
      else
        match pySplitWs t.data with
        | [] => .error .indexError
        | num_string :: _ => do
          let match_number ← pyInt (num_string.filter (fun c => c ≠ '.'))
          let items_per_page : ℤ := 48
          let pages : ℤ := Int.fdiv match_number items_per_page + 1
          .ok ((List.range' 1 pages.toNat).map fun page => url ++ "?page=" ++ toString page)

/-- A regex match object: the matched text and the list of captured groups.
The pattern `r"\d{4}"` contains no capturing group, so every match object
that `zip_re_search` produces has an empty `groups` list. -/
structure ReMatch where
  matched : List Char
  groups : List (List Char)
  deriving Repr, DecidableEq

/-- Does the text start with four digits? -/
def startsWith4Digits (cs : List Char) : Bool :=
  match cs with
  | a :: b :: c :: d :: _ => a.isDigit && b.isDigit && c.isDigit && d.isDigit
  | _ => false

/-- `RealoBeRealEstatePage.zip_re_search`: `re.search(r"\d{4}", text)`,
returning the leftmost four-consecutive-digit match. -/
def zip_re_search (text : List Char) : Option ReMatch :=
  match text with
  | [] => none
  | c :: cs =>
    if startsWith4Digits (c :: cs) then some ⟨(c :: cs).take 4, []⟩
    else zip_re_search cs

/-- `match.group(1)`: `IndexError` when the pattern has no such group. -/
def ReMatch.group1 (m : ReMatch) : Except PyErr (List Char) :=
  match m.groups with
  | [] => .error .indexError
  | g :: _ => .ok g

/-- `RealoBeRealEstatePage.zip_code`.  Inputs: the first path segment of the
URL after `https://www.realo.be/en/`, and the cleaned address-line text of
the page.  Each successful `zip_re_search` is followed by `group(1)`; when
neither text matches, `DropItem` is raised. -/
def zip_code (url_segment address_text : List Char) : Except PyErr (List Char) :=
  match zip_re_search url_segment with
  | some re_search => re_search.group1
  | none =>
    match zip_re_search address_text with
    | none => .error (.dropItem "Could not extract ZIP")
    | some re_search => re_search.group1

end RealoBe

/-! ### `concrete_items/habita_com.py` -/

namespace HabitaCom

/-- The `codes` list: the values of `_country_name_site_code_dct`. -/
def codes : List ℕ := [1, 3, 15, 9]

/-- String form of a comma-separated code list (`",".join(...)`). -/
def joinComma (ns : List ℕ) : String :=
  match ns with
  | [] => ""
  | n :: rest => rest.foldl (fun acc m => acc ++ "," ++ toString m) (toString n)

/-- `_create_api_url(country_codes, page, items_per_page, listing_query_type)`. -/
def create_api_url (country_codes : List ℕ) (page items_per_page : ℕ)
    (listing_query_type : String) : String :=
  "https://www.habita.com/propertysearch/results/en/" ++ toString page ++ "/" ++
    toString items_per_page ++ "/full?countries=" ++ joinComma country_codes ++
    "&sort=newest&type=" ++ listing_query_type

/-- `HabitaComRealEstateListPage.real_estate_list_urls_paginated`.  Inputs:
the page's `self.url` and the `numResults` field of the API response.  The
listing query type is the text after the last `"="` of the URL; the method
unconditionally fans out to `numResults // 100 + 1` API page URLs — it has
no already-paginated guard. -/
def real_estate_list_urls_paginated (url : String) (numResults : ℕ) : List String :=
  let listing_query_type : String := ⟨(splitOnChar '=' url.data).getLastD []⟩
  let num_pages := numResults / 100 + 1
  (List.range' 1 num_pages).map fun page => create_api_url codes page 100 listing_query_type

end HabitaCom

/-! ### `concrete_items/immowelt_at.py`: numeric normalization -/

namespace ImmoweltAt

/-- The value that `float(num_str)` yields on a string accepted by
`is_numeric` (total companion of `pyFloat?`). -/
def pyFloatVal (cs : List Char) : ℚ :=
  (pyFloat? cs).getD 0

/-- The `.replace(".", "").replace(",", ".")` normalization applied to a
label token in `ImmoweltAtRealEstatePage.area` / `price_amount` /
`__extract_energy_data`. -/
def normalizeToken (tok : List Char) : List Char :=
  (tok.filter (fun c => c ≠ '.')).map (fun c => if c = ',' then '.' else c)

/-- The numeric normalization of the adapters:
`float(num_str) if self.fmtckr.is_numeric(num_str) else None` where
`num_str` is the dot-stripped, comma-to-dot token. -/
def normalize_numeric (tok : List Char) : Option ℚ :=
  if FormatChecker.is_numeric ⟨normalizeToken tok⟩ then some (pyFloatVal (normalizeToken tok))
  else none

/-- `ImmoweltAtRealEstatePage.area`: first whitespace token of the label
(IndexError on an all-whitespace label), then the normalization. -/
def area (area_label : String) : Except PyErr (Option ℚ) :=
  match pySplitWs area_label.data with
  | [] => .error .indexError
  | tok :: _ => .ok (normalize_numeric tok)

end ImmoweltAt

/-! ### Spec-side definitions (for refinement comparisons only)

These definitions follow the wording of the specification, not the source;
they exist solely to be compared against the definitions above. -/

/-- Modelled from the spec: the flat storage-schema field list of the
external-interfaces section ("country, city, zip_code, listing_type, area,
price_amount, price_unit, heating_demand_class, heating_demand_value,
energy_efficiency_class, energy_efficiency_value, epc_pdf_url,
epc_issued_date, date_built, object_type, scrape_url (unique),
scrape_timestamp"). -/
def specSchemaFields : List String :=
  ["country", "city", "zip_code", "listing_type", "area", "price_amount", "price_unit",
   "heating_demand_class", "heating_demand_value", "energy_efficiency_class",
   "energy_efficiency_value", "epc_pdf_url", "epc_issued_date", "date_built", "object_type",
   "scrape_url", "scrape_timestamp"]

/-- Modelled from the spec: the explicit renaming relating each spec schema
field to the `RealEstateDBItem` column that stores it in the code
(`country` ↦ `location_country`, `heating_demand_class` ↦
`heating_demand_energy_class`, `scrape_url` ↦ `scrape_metadata_url`, ...). -/
def fieldColumnName (f : String) : String :=
  if f = "country" then "location_country"
  else if f = "city" then "location_city"
  else if f = "zip_code" then "location_zip_code"
  else if f = "heating_demand_class" then "heating_demand_energy_class"
  else if f = "energy_efficiency_class" then "energy_efficiency_energy_class"
  else if f = "scrape_url" then "scrape_metadata_url"
  else if f = "scrape_timestamp" then "scrape_metadata_timestamp"
  else f

/-- The spec schema fields for which `RealEstateDBItem` declares no column. -/
def missingSchemaFields : List String :=
  ["epc_pdf_url", "epc_issued_date", "date_built", "object_type"]

/-- The claim of C4, formalized: some injective assignment of a distinct
`RealEstateDBItem` column to every spec schema field exists, and the
scrape-URL column is declared unique. -/
def C4SchemaClaim : Prop :=
  (∃ colOf : String → ColumnDecl,
    (∀ f ∈ specSchemaFields, colOf f ∈ RealEstateDBItem.columns) ∧
    Set.InjOn colOf { f | f ∈ specSchemaFields }) ∧
  ∀ c ∈ RealEstateDBItem.columns, c.name = "scrape_metadata_url" → c.unique = true

/-- The numeric value of the first four characters when all four are
digits. -/
def fourDigitValAt (cs : List Char) : Option ℕ :=
  match cs with
  | a :: b :: c :: d :: _ =>
    if a.isDigit && b.isDigit && c.isDigit && d.isDigit then some (digitsVal [a, b, c, d])
    else none
  | _ => none

/-- Modelled from the spec: "the first 1700–2099-range 4-digit year found in
a string" — scan left to right for four consecutive digits whose value lies
in `1700..2099`. -/
def specFirstYear : List Char → Option ℕ
  | [] => none
  | c :: cs =>
    match fourDigitValAt (c :: cs) with
    | some v => if 1700 ≤ v ∧ v ≤ 2099 then some v else specFirstYear cs
    | none => specFirstYear cs

/-- A concrete well-formed scraped record dict, as a hand-built dict whose
top level carries every key `from_dict` reads (unlike `to_item` output). -/
def sampleRealEstateDict : RealEstate :=
  { location := some ⟨"AUT", "Wien", "1010"⟩
    listing_type := some "sale"
    area := some none
    price := some (some ⟨5, "EUR"⟩)
    epc_data := some ⟨none, none, none, none⟩
    heating_demand := some none
    energy_efficiency := some none
    item_metadata := some ⟨none, "Haus"⟩
    scrape_metadata := some ⟨"https://example.org/1", 0⟩ }

/-! ### Auxiliary lemmas -/

/-- `takeDigits` is `takeWhile`/`dropWhile` for `Char.isDigit`. -/
theorem takeDigits_eq (cs : List Char) :
    takeDigits cs = (cs.takeWhile Char.isDigit, cs.dropWhile Char.isDigit) := by
  induction cs with
  | nil => rfl
  | cons c cs ih =>
    by_cases h : c.isDigit <;>
      simp [takeDigits, List.takeWhile_cons, List.dropWhile_cons, h, ih]

/-- `firstDigitRun` fails exactly on digit-free text. -/
theorem firstDigitRun_eq_none (cs : List Char) :
    FormatChecker.firstDigitRun cs = none ↔ cs.any Char.isDigit = false := by
  induction cs with
  | nil => simp [FormatChecker.firstDigitRun]
  | cons c cs ih =>
    by_cases h : c.isDigit <;> simp [FormatChecker.firstDigitRun, h, ih]

/-- On text containing a digit, `firstDigitRun` returns the maximal digit
run starting at the first digit. -/
theorem firstDigitRun_eq_some (cs : List Char) (h : cs.any Char.isDigit = true) :
    FormatChecker.firstDigitRun cs =
      some ((cs.dropWhile (fun c => !c.isDigit)).takeWhile Char.isDigit) := by
  induction cs with
  | nil => simp at h
  | cons c cs ih =>
    by_cases hc : c.isDigit
    · simp [FormatChecker.firstDigitRun, hc, takeDigits_eq, List.dropWhile_cons,
        List.takeWhile_cons]
    · have h' : cs.any Char.isDigit = true := by simpa [hc] using h
      simp [FormatChecker.firstDigitRun, hc, List.dropWhile_cons, ih h']

/-! ### Claim C2 -/

/-- C2: `RealEstateDBItem.from_dict` reads `"heating_demand"` and
`"energy_efficiency"` at the top level of the record dict, while
`RealEstatePage.to_item` nests those values only inside `"epc_data"`; hence
for every record produced by `to_item`, `from_dict` raises
`KeyError("heating_demand")`, and `PostgresPipeline.process_item` therefore
raises before anything is added to the session (the session is unchanged;
only the item counter has been incremented). -/
theorem to_item_from_dict_keyerror (p : RealEstatePage) (st : PostgresPipeline) :
    RealEstateDBItem.from_dict p.to_item = .error (.keyError "heating_demand") ∧
    (st.process_item p.to_item).2 = .error (.keyError "heating_demand") ∧
    (st.process_item p.to_item).1.session = st.session ∧
    (st.process_item p.to_item).1.num_items = st.num_items + 1 := by
  refine ⟨rfl, ?_, ?_, ?_⟩ <;>
    simp [PostgresPipeline.process_item, RealEstateDBItem.from_dict, RealEstatePage.to_item,
      getKey, Bind.bind, Except.bind]

/-! ### Claim C3 -/

/-- C3: for the pipeline built over the rows currently in storage,
`DuplicatesPipeline.process_item` raises `DropItem` if and only if the
record's scrape-metadata URL is among the stored rows' scrape URLs (the
set loaded once at pipeline construction); otherwise it returns the very
same record; and in neither case does it modify the seen-URL set. -/
theorem duplicates_process_item_spec (rows : List RealEstateDBItem) (item : RealEstate)
    (sm : ScrapeMetadata) (h : item.scrape_metadata = some sm) :
    ((DuplicatesPipeline.ofStorage rows).process_item item).1 =
      DuplicatesPipeline.ofStorage rows ∧
    (((DuplicatesPipeline.ofStorage rows).process_item item).2 =
        .error (.dropItem ("Real estate item already scraped in a previous run: " ++ sm.url)) ↔
      sm.url ∈ rows.map RealEstateDBItem.scrape_metadata_url) ∧
    (sm.url ∉ rows.map RealEstateDBItem.scrape_metadata_url →
      ((DuplicatesPipeline.ofStorage rows).process_item item).2 = .ok item) := by
  have hmem : sm.url ∈ (DuplicatesPipeline.ofStorage rows).item_urls_seen ↔
      sm.url ∈ rows.map RealEstateDBItem.scrape_metadata_url := by
    simp [DuplicatesPipeline.ofStorage, DuplicatesPipeline.fetch_scraped_item_urls,
      List.mem_dedup]
  unfold DuplicatesPipeline.process_item
  rw [h]
  by_cases hm : sm.url ∈ (DuplicatesPipeline.ofStorage rows).item_urls_seen <;>
    simp [getKey, hm, ← hmem]

/-- A row as persisted in storage, used by concrete dedup checks. -/
def sampleDBRow : RealEstateDBItem :=
  { location_country := "AUT"
    location_city := "Wien"
    location_zip_code := "1010"
    listing_type := "sale"
    area := none
    price_amount := none
    price_unit := none
    heating_demand_energy_class := none
    heating_demand_value := none
    energy_efficiency_energy_class := none
    energy_efficiency_value := none
    scrape_metadata_url := "https://example.org/0"
    scrape_metadata_timestamp := 0 }

/-- Witness for C3 at a concrete storage state and record: the sample
record's URL is not among the stored URLs `["https://example.org/0"]`, so
it passes through unchanged and the pipeline state is unmodified. -/
theorem duplicates_process_item_spec_witness :
    ((DuplicatesPipeline.ofStorage [sampleDBRow]).process_item sampleRealEstateDict).1 =
      DuplicatesPipeline.ofStorage [sampleDBRow] ∧
    ((DuplicatesPipeline.ofStorage [sampleDBRow]).process_item sampleRealEstateDict).2 =
      .ok sampleRealEstateDict := by
  have h := duplicates_process_item_spec [sampleDBRow] sampleRealEstateDict
    ⟨"https://example.org/1", 0⟩ rfl
  exact ⟨h.1, h.2.2 (by decide)⟩

/-! ### Claim C4 (corrected) -/

/-- Counterexample to C4 as stated: no injective field-to-column assignment
can exist, because `RealEstateDBItem` declares only 14 columns (including
the `id` primary key) for the 17 spec fields — `epc_pdf_url`,
`epc_issued_date`, `date_built` and `object_type` have no column — and the
`scrape_metadata_url` column is declared without `unique=True`. -/
theorem real_estate_db_schema_counterexample :
    (¬ ∃ colOf : String → ColumnDecl,
        (∀ f ∈ specSchemaFields, colOf f ∈ RealEstateDBItem.columns) ∧
        Set.InjOn colOf { f | f ∈ specSchemaFields }) ∧
    (⟨"scrape_metadata_url", false, false⟩ ∈ RealEstateDBItem.columns ∧
      ∀ c ∈ RealEstateDBItem.columns, c.unique = false) ∧
    ¬ C4SchemaClaim := by
  have hno : ¬ ∃ colOf : String → ColumnDecl,
      (∀ f ∈ specSchemaFields, colOf f ∈ RealEstateDBItem.columns) ∧
      Set.InjOn colOf { f | f ∈ specSchemaFields } := by
    rintro ⟨colOf, hmem, hinj⟩
    have hcard : (specSchemaFields.toFinset.image colOf).card =
        specSchemaFields.toFinset.card := by
      apply Finset.card_image_of_injOn
      intro a ha b hb hab
      exact hinj (by simpa using ha) (by simpa using hb) hab
    have hsub : specSchemaFields.toFinset.image colOf ⊆ RealEstateDBItem.columns.toFinset := by
      intro c hc
      simp only [Finset.mem_image] at hc
      obtain ⟨f, hf, rfl⟩ := hc
      simpa [List.mem_toFinset] using hmem f (by simpa using hf)
    have h1 := Finset.card_le_card hsub
    rw [hcard] at h1
    have h2 : specSchemaFields.toFinset.card = 17 := by decide
    have h3 : (RealEstateDBItem.columns).toFinset.card = 14 := by decide
    omega
  refine ⟨hno, ⟨by decide, by decide⟩, ?_⟩
  rintro ⟨hex, _⟩
  exact hno hex

/-- C4 amended: each spec schema field other than `epc_pdf_url`,
`epc_issued_date`, `date_built` and `object_type` is stored by exactly one
`RealEstateDBItem` column (under the explicit renaming `fieldColumnName`);
the four missing fields correspond to no column (no column name even
mentions them); and no column — in particular not `scrape_metadata_url` —
is declared unique, so the table itself does not prevent two rows sharing a
source URL (cross-run dedup lives solely in `DuplicatesPipeline`). -/
theorem real_estate_db_schema_amended :
    (∀ f ∈ specSchemaFields, f ∉ missingSchemaFields →
      (RealEstateDBItem.columns.map ColumnDecl.name).count (fieldColumnName f) = 1) ∧
    (∀ f ∈ missingSchemaFields, ∀ c ∈ RealEstateDBItem.columns,
      containsSub f.data c.name.data = false) ∧
    (∀ c ∈ RealEstateDBItem.columns, c.unique = false) := by
  decide

/-- Witness for C4 amended at the spec field `"country"`: it is not among
the missing fields and exactly one column (`location_country`) stores it. -/
theorem real_estate_db_schema_amended_witness :
    ("country" ∈ specSchemaFields ∧ "country" ∉ missingSchemaFields) ∧
    (RealEstateDBItem.columns.map ColumnDecl.name).count (fieldColumnName "country") = 1 := by
  refine ⟨⟨by decide, by decide⟩, ?_⟩
  exact real_estate_db_schema_amended.1 "country" (by decide) (by decide)

/-! ### Claim C5 (corrected) -/

/-- Counterexample to C5 as stated: on `"ca. 12 m, built 1985"` the first
1700–2099-range 4-digit year is `1985`, but `extract_year` returns the
value of the first digit run, `12`. -/
theorem extract_year_counterexample :
    FormatChecker.extract_year "ca. 12 m, built 1985" = .ok 12 ∧
    specFirstYear "ca. 12 m, built 1985".data = some 1985 ∧ (12 : ℕ) ≠ 1985 := by
  decide

/-- C5 amended: `extract_year` returns the decimal value of the *first
maximal digit run* of the string (no 4-digit or 1700–2099 restriction), and
raises `ValueError` exactly for strings containing no digit. -/
theorem extract_year_amended (s : String) :
    (FormatChecker.extract_year s).isOk = FormatChecker.contains_number s ∧
    (FormatChecker.contains_number s = true →
      FormatChecker.extract_year s =
        .ok (digitsVal ((s.data.dropWhile (fun c => !c.isDigit)).takeWhile Char.isDigit))) ∧
    (FormatChecker.contains_number s = false →
      FormatChecker.extract_year s =
        .error (.valueError ("Could not extract year from string: " ++ s))) := by
  unfold FormatChecker.extract_year FormatChecker.contains_number
  by_cases h : s.data.any Char.isDigit
  · rw [firstDigitRun_eq_some s.data h]
    simp [h, Except.isOk, Except.toBool]
  · rw [(firstDigitRun_eq_none s.data).mpr (by simpa using h)]
    simp [h, Except.isOk, Except.toBool]

/-- Witness for C5 amended at `"Ca. 1963"` (an input from the repository's
own test suite): the string contains a digit and the first digit run is
`1963`. -/
theorem extract_year_amended_witness :
    FormatChecker.contains_number "Ca. 1963" = true ∧
    FormatChecker.extract_year "Ca. 1963" = .ok 1963 := by
  have h := (extract_year_amended "Ca. 1963").2.1 (by decide)
  exact ⟨by decide, by rw [h]; rfl⟩

/-! ### Claim C6 (corrected) -/

/-- Counterexample to C6 as stated: `habita.com`'s pagination has no
already-paginated guard.  The page-2 API URL is itself produced by
`real_estate_list_urls_paginated` (so it already carries the adapter's
pagination marker, the page/items-per-page path components), yet invoking
pagination on it again returns a non-empty URL list. -/
theorem pagination_guard_counterexample :
    HabitaCom.create_api_url HabitaCom.codes 2 100 "ResidenceRent" ∈
      HabitaCom.real_estate_list_urls_paginated
        (HabitaCom.create_api_url HabitaCom.codes 1 1 "ResidenceRent") 150 ∧
    HabitaCom.real_estate_list_urls_paginated
        (HabitaCom.create_api_url HabitaCom.codes 2 100 "ResidenceRent") 150 =
      [HabitaCom.create_api_url HabitaCom.codes 1 100 "ResidenceRent",
       HabitaCom.create_api_url HabitaCom.codes 2 100 "ResidenceRent"] ∧
    HabitaCom.real_estate_list_urls_paginated
        (HabitaCom.create_api_url HabitaCom.codes 2 100 "ResidenceRent") 150 ≠ [] := by
  decide

/-- C6 amended: the `realo.be` list-page adapter returns the empty list on
every URL already carrying its `"?page="` pagination marker, but the
`habita.com` list-page adapter performs no such check: it returns
`numResults // 100 + 1` URLs (never the empty list) on every URL. -/
theorem pagination_guard_amended :
    (∀ (url : String) (match_number_text : Option String),
      containsSub "?page=".data url.data = true →
      RealoBe.real_estate_list_urls_paginated url match_number_text = .ok []) ∧
    (∀ (url : String) (numResults : ℕ),
      (HabitaCom.real_estate_list_urls_paginated url numResults).length =
        numResults / 100 + 1) := by
  constructor
  · intro url t h
    unfold RealoBe.real_estate_list_urls_paginated
    simp [h]
  · intro url n
    simp [HabitaCom.real_estate_list_urls_paginated]

/-- Witness for C6 amended: the already-paginated realo.be URL
`.../search/gent-9000?page=2` yields no further pagination even though the
result-count text would otherwise produce 43 pages. -/
theorem pagination_guard_amended_witness :
    containsSub "?page=".data "https://www.realo.be/en/search/gent-9000?page=2".data = true ∧
    RealoBe.real_estate_list_urls_paginated "https://www.realo.be/en/search/gent-9000?page=2"
        (some "2.039 results") = .ok [] := by
  refine ⟨by decide, ?_⟩
  exact pagination_guard_amended.1 "https://www.realo.be/en/search/gent-9000?page=2"
    (some "2.039 results") (by decide)

/-! ### Claim C7 (corrected) -/

/-- A module defining two concrete `RealEstateHomePage` implementations. -/
def dupHomeImplA : PyClass := ⟨"AaImpl", ["RealEstateHomePage", "WebPage"]⟩

/-- A second concrete `RealEstateHomePage` implementation in that module. -/
def dupHomeImplB : PyClass := ⟨"BbImpl", ["RealEstateHomePage", "WebPage"]⟩

/-- Counterexample to C7 as stated: for a module with *two* concrete
implementations of the home-page role, `_get_concrete_class` does not raise
— it silently returns the first match. -/
theorem get_concrete_class_counterexample :
    (([("AaImpl", dupHomeImplA), ("BbImpl", dupHomeImplB)].filter
        (fun p => issubclass p.2 homePageAbstract && p.2 != homePageAbstract)).length = 2) ∧
    getConcreteClass [("AaImpl", dupHomeImplA), ("BbImpl", dupHomeImplB)] homePageAbstract =
      .ok dupHomeImplA ∧
    (registerModule [("AaImpl", dupHomeImplA), ("BbImpl", dupHomeImplB),
        ("CcList", ⟨"CcList", ["RealEstateListPage", "WebPage"]⟩),
        ("DdPage", ⟨"DdPage", ["RealEstatePage", "ItemWebPage", "WebPage"]⟩)]).isOk = true := by
  decide

/-- C7 amended: `_get_concrete_class` returns the *first* proper subclass
of the abstract class in member order and raises `ValueError` only when
there is none; accordingly module registration aborts startup if and only
if some of the three page roles has zero concrete implementations —
several implementations of one role are not an error, the first is
registered silently. -/
theorem adapter_registration_amended (classes : List (String × PyClass)) :
    (∀ abstract : PyClass,
      getConcreteClass classes abstract =
        match classes.find? (fun p => issubclass p.2 abstract && p.2 != abstract) with
        | some p => Except.ok p.2
        | none =>
          Except.error (.valueError ("No concrete implementation found for " ++ abstract.name))) ∧
    (∀ abstract : PyClass,
      (getConcreteClass classes abstract).isOk =
        classes.any (fun p => issubclass p.2 abstract && p.2 != abstract)) ∧
    ((registerModule classes).isOk =
      ((getConcreteClass classes homePageAbstract).isOk &&
        (getConcreteClass classes listPageAbstract).isOk &&
        (getConcreteClass classes pageAbstract).isOk)) := by
  have hfind : ∀ abstract : PyClass,
      getConcreteClass classes abstract =
        match classes.find? (fun p => issubclass p.2 abstract && p.2 != abstract) with
        | some p => Except.ok p.2
        | none =>
          Except.error (.valueError ("No concrete implementation found for " ++ abstract.name)) := by
    intro abstract
    induction classes with
    | nil => rfl
    | cons hd tl ih =>
      cases h : (issubclass hd.2 abstract && hd.2 != abstract) with
      | true => simp [getConcreteClass, List.find?, h]
      | false => simp [getConcreteClass, List.find?, h, ih]
  have hrole : ∀ abstract : PyClass,
      (getConcreteClass classes abstract).isOk =
        classes.any (fun p => issubclass p.2 abstract && p.2 != abstract) := by
    intro abstract
    rw [hfind abstract]
    rcases hf : classes.find? (fun p => issubclass p.2 abstract && p.2 != abstract) with _ | p
    · have hany : classes.any (fun p => issubclass p.2 abstract && p.2 != abstract) = false := by
        rw [List.any_eq_false]
        intro x hx
        simpa using List.find?_eq_none.mp hf x hx
      rw [hf, hany]
      rfl
    · have hany : classes.any (fun p => issubclass p.2 abstract && p.2 != abstract) = true := by
        rw [List.any_eq_true]
        exact ⟨p, List.mem_of_find?_eq_some hf, by simpa using List.find?_some hf⟩
      rw [hf, hany]
      rfl
  refine ⟨hfind, hrole, ?_⟩
  unfold registerModule
  cases h1 : getConcreteClass classes homePageAbstract with
  | error e => simp [h1, Bind.bind, Except.bind, Except.isOk, Except.toBool]
  | ok c1 =>
    cases h2 : getConcreteClass classes listPageAbstract with
    | error e => simp [h1, h2, Bind.bind, Except.bind, Except.isOk, Except.toBool]
    | ok c2 =>
      cases h3 : getConcreteClass classes pageAbstract with
      | error e => simp [h1, h2, h3, Bind.bind, Except.bind, Except.isOk, Except.toBool]
      | ok c3 => simp [h1, h2, h3, Bind.bind, Except.bind, Except.isOk, Except.toBool]

/-! ### Claim C9 (corrected) -/

/-- A hand-built record dict whose `price` is a dict with falsy amount
`0.0` and unit `"EUR"`. -/
def zeroPriceDict : RealEstate :=
  { sampleRealEstateDict with price := some (some ⟨0, "EUR"⟩) }

/-- Counterexample to C9 as stated: `from_dict` on a record whose price has
amount `0.0` does *not* yield NULL in both price columns — the
`price_unit` column keeps `"EUR"`, because the (always truthy) price dict
short-circuits only the amount, not the unit. -/
theorem price_zero_counterexample :
    ((RealEstateDBItem.from_dict zeroPriceDict).toOption.map RealEstateDBItem.price_amount) =
      some none ∧
    ((RealEstateDBItem.from_dict zeroPriceDict).toOption.map RealEstateDBItem.price_unit) =
      some (some "EUR") := by
  decide

/-- C9 amended: in `to_item` the record's price is `None` whenever
`price_amount` is `None` or the falsy `0.0`; and `from_dict` maps a price
dict whose amount is `0.0` to a NULL `price_amount` column, while the
`price_unit` column retains the unit string (it is NULL only when the price
itself is `None` or the unit string is empty). -/
theorem price_zero_amended (p : RealEstatePage) (loc : Location) (lt : String)
    (ar : Option ℚ) (pr : Price) (epc : Option EPCData) (hd ee : Option EnergyData)
    (im : Option RealEstateMetadata) (smd : ScrapeMetadata) (h0 : pr.amount = 0) :
    ((p.price_amount = none ∨ p.price_amount = some 0) → p.to_item.price = some none) ∧
    ∃ item,
      RealEstateDBItem.from_dict
          ⟨some loc, some lt, some ar, some (some pr), epc, some hd, some ee, im, some smd⟩ =
        .ok item ∧
      item.price_amount = none ∧
      item.price_unit = (if pr.unit = "" then none else some pr.unit) := by
  constructor
  · rintro (h | h) <;> simp [RealEstatePage.to_item, h]
  · refine ⟨_, rfl, ?_, ?_⟩ <;>
      simp [RealEstateDBItem.from_dict, getKey, Bind.bind, Except.bind, pyAndOrQ, pyAndOrStr, h0]

/-- Witness for C9 amended at concrete inputs: a page extraction with
`price_amount = 0.0` yields a record with `price = None`, and `from_dict`
on a dict with price `{amount: 0.0, unit: "EUR"}` stores a NULL
`price_amount` and the non-NULL unit `"EUR"`. -/
theorem price_zero_amended_witness :
    (RealEstatePage.to_item
        ⟨"BEL", "Gent", "9000", "sale", none, some 0, "EUR", none, none, none, none, none,
          "Huis", "https://example.org/2", 0⟩).price = some none ∧
    ∃ item,
      RealEstateDBItem.from_dict
          ⟨some ⟨"AUT", "Wien", "1010"⟩, some "sale", some none, some (some ⟨0, "EUR"⟩),
            some ⟨none, none, none, none⟩, some none, some none, some ⟨none, "Haus"⟩,
            some ⟨"https://example.org/1", 0⟩⟩ =
        .ok item ∧
      item.price_amount = none ∧
      item.price_unit = (if "EUR" = "" then none else some "EUR") := by
  have h := price_zero_amended
    ⟨"BEL", "Gent", "9000", "sale", none, some 0, "EUR", none, none, none, none, none,
      "Huis", "https://example.org/2", 0⟩
    ⟨"AUT", "Wien", "1010"⟩ "sale" none ⟨0, "EUR"⟩ (some ⟨none, none, none, none⟩)
    none none (some ⟨none, "Haus"⟩) ⟨"https://example.org/1", 0⟩ rfl
  exact ⟨h.1 (Or.inr rfl), h.2⟩

/-! ### Claim C10 -/

/-- Four consecutive digits occur somewhere in the text. -/
def hasFourConsecDigits (cs : List Char) : Prop :=
  ∃ (l₁ l₂ : List Char) (a b c d : Char),
    cs = l₁ ++ a :: b :: c :: d :: l₂ ∧
    a.isDigit ∧ b.isDigit ∧ c.isDigit ∧ d.isDigit

/-- A successful `zip_re_search` on text containing four consecutive
digits. -/
theorem zip_re_search_isSome (l₁ l₂ : List Char) (a b c d : Char)
    (ha : a.isDigit) (hb : b.isDigit) (hc : c.isDigit) (hd : d.isDigit) :
    (RealoBe.zip_re_search (l₁ ++ a :: b :: c :: d :: l₂)).isSome = true := by
  induction l₁ with
  | nil => simp [RealoBe.zip_re_search, RealoBe.startsWith4Digits, ha, hb, hc, hd]
  | cons x xs ih =>
    rw [List.cons_append]
    unfold RealoBe.zip_re_search
    by_cases hx : RealoBe.startsWith4Digits (x :: (xs ++ a :: b :: c :: d :: l₂)) <;>
      simp [hx, ih]

/-- A successful `zip_re_search` exhibits four consecutive digits. -/
theorem zip_re_search_some_imp (cs : List Char) (m : RealoBe.ReMatch)
    (h : RealoBe.zip_re_search cs = some m) : hasFourConsecDigits cs := by
  induction cs with
  | nil => simp [RealoBe.zip_re_search] at h
  | cons x xs ih =>
    unfold RealoBe.zip_re_search at h
    by_cases hx : RealoBe.startsWith4Digits (x :: xs)
    · rcases xs with _ | ⟨b, _ | ⟨c, _ | ⟨d, rest⟩⟩⟩ <;>
        simp [RealoBe.startsWith4Digits] at hx
      exact ⟨[], rest, x, b, c, d, rfl, by tauto, by tauto, by tauto, by tauto⟩
    · rw [if_neg hx] at h
      obtain ⟨l₁, l₂, a, b, c, d, heq, ha, hb, hc, hd⟩ := ih h
      exact ⟨x :: l₁, l₂, a, b, c, d, by simp [heq], ha, hb, hc, hd⟩

/-- Every match object `zip_re_search` produces has no capturing groups
(the pattern `r"\d{4}"` has none). -/
theorem zip_re_search_groups_nil (cs : List Char) (m : RealoBe.ReMatch)
    (h : RealoBe.zip_re_search cs = some m) : m.groups = [] := by
  induction cs with
  | nil => simp [RealoBe.zip_re_search] at h
  | cons x xs ih =>
    unfold RealoBe.zip_re_search at h
    by_cases hx : RealoBe.startsWith4Digits (x :: xs)
    · rw [if_pos hx] at h
      cases h
      rfl
    · rw [if_neg hx] at h
      exact ih h

/-- C10: `RealoBeRealEstatePage.zip_code` never returns a value.  Its
helper's pattern `r"\d{4}"` has no capturing group while `zip_code` calls
`group(1)` on every successful match, so whenever the URL segment or the
address line contains four consecutive digits it raises `IndexError`, and
when the pattern matches in neither text it raises `DropItem`. -/
theorem realo_be_zip_code_spec (seg addr : List Char) :
    (∀ s, RealoBe.zip_code seg addr ≠ .ok s) ∧
    (hasFourConsecDigits seg ∨ hasFourConsecDigits addr →
      RealoBe.zip_code seg addr = .error .indexError) ∧
    (¬ hasFourConsecDigits seg → ¬ hasFourConsecDigits addr →
      RealoBe.zip_code seg addr = .error (.dropItem "Could not extract ZIP")) := by
  have hnone : ∀ cs : List Char, ¬ hasFourConsecDigits cs → RealoBe.zip_re_search cs = none := by
    intro cs hno
    rcases h : RealoBe.zip_re_search cs with _ | m
    · rfl
    · exact absurd (zip_re_search_some_imp cs m h) hno
  have hsome : ∀ cs : List Char, hasFourConsecDigits cs →
      ∃ m, RealoBe.zip_re_search cs = some m := by
    intro cs hyes
    obtain ⟨l₁, l₂, a, b, c, d, heq, ha, hb, hc, hd⟩ := hyes
    have := zip_re_search_isSome l₁ l₂ a b c d ha hb hc hd
    rw [← heq] at this
    exact Option.isSome_iff_exists.mp this
  refine ⟨?_, ?_, ?_⟩
  · intro s hok
    unfold RealoBe.zip_code at hok
    rcases h1 : RealoBe.zip_re_search seg with _ | m1
    · rw [h1] at hok
      rcases h2 : RealoBe.zip_re_search addr with _ | m2
      · rw [h2] at hok
        simp at hok
      · rw [h2] at hok
        have hg := zip_re_search_groups_nil addr m2 h2
        simp [RealoBe.ReMatch.group1, hg] at hok
    · rw [h1] at hok
      have hg := zip_re_search_groups_nil seg m1 h1
      simp [RealoBe.ReMatch.group1, hg] at hok
  · rintro (hseg | haddr)
    · obtain ⟨m, hm⟩ := hsome seg hseg
      have hg := zip_re_search_groups_nil seg m hm
      unfold RealoBe.zip_code
      rw [hm]
      simp [RealoBe.ReMatch.group1, hg]
    · rcases h1 : RealoBe.zip_re_search seg with _ | m1
      · obtain ⟨m, hm⟩ := hsome addr haddr
        have hg := zip_re_search_groups_nil addr m hm
        unfold RealoBe.zip_code
        rw [h1, hm]
        simp [RealoBe.ReMatch.group1, hg]
      · have hg := zip_re_search_groups_nil seg m1 h1
        unfold RealoBe.zip_code
        rw [h1]
        simp [RealoBe.ReMatch.group1, hg]
  · intro hseg haddr
    unfold RealoBe.zip_code
    rw [hnone seg hseg, hnone addr haddr]

/-! ### Claim C8 (corrected) -/

/-- The character of a decimal digit. -/
def digitChar (d : Fin 10) : Char := Char.ofNat (48 + d.val)

/-- The digit characters of a digit list. -/
def digitStr (ds : List (Fin 10)) : List Char := ds.map digitChar

/-- The number denoted by a digit list. -/
def natOfDigits (ds : List (Fin 10)) : ℕ := ds.foldl (fun a d => 10 * a + d.val) 0

/-- Elementary facts about digit characters. -/
theorem digitChar_facts (d : Fin 10) :
    (digitChar d).isDigit = true ∧ digitChar d ≠ '.' ∧ digitChar d ≠ ',' ∧
    digitChar d ≠ '-' ∧ digitChar d ≠ '+' ∧ (digitChar d).toNat - 48 = d.val := by
  revert d
  decide

/-- `digitsVal` agrees with the abstract digit-list value. -/
theorem digitsVal_digitStr (ds : List (Fin 10)) : digitsVal (digitStr ds) = natOfDigits ds := by
  unfold digitsVal natOfDigits digitStr
  rw [List.foldl_map]
  congr 1
  funext a d
  rw [(digitChar_facts d).2.2.2.2.2]

/-- `takeDigits` consumes a digit string up to a dot. -/
theorem takeDigits_digitStr_dot (ds : List (Fin 10)) (rest : List Char) :
    takeDigits (digitStr ds ++ '.' :: rest) = (digitStr ds, '.' :: rest) := by
  induction ds with
  | nil => simp [digitStr, takeDigits]
  | cons d ds ih =>
    simp only [digitStr, List.map_cons, List.cons_append] at ih ⊢
    simp [takeDigits, (digitChar_facts d).1, ih]

/-- `takeDigits` consumes a whole digit string. -/
theorem takeDigits_digitStr_nil (ds : List (Fin 10)) :
    takeDigits (digitStr ds) = (digitStr ds, []) := by
  induction ds with
  | nil => simp [digitStr, takeDigits]
  | cons d ds ih =>
    simp only [digitStr, List.map_cons] at ih ⊢
    simp [takeDigits, (digitChar_facts d).1, ih]

/-- A leading digit is not a sign. -/
theorem parseSign_digit_head (d : Fin 10) (rest : List Char) :
    parseSign (digitChar d :: rest) = (false, digitChar d :: rest) := by
  simp [parseSign, (digitChar_facts d).2.2.2.1, (digitChar_facts d).2.2.2.2.1]

/-- `float` on a `digits.digits` literal returns its exact value. -/
theorem pyFloat_digitStr (ip fp : List (Fin 10)) (h : ip ≠ []) :
    pyFloat? (digitStr ip ++ '.' :: digitStr fp) =
      some ((natOfDigits ip : ℚ) + (natOfDigits fp : ℚ) / (10 : ℚ) ^ fp.length) := by
  obtain ⟨d, ds, rfl⟩ := List.exists_cons_of_ne_nil h
  have h1 : digitStr (d :: ds) ++ '.' :: digitStr fp =
      digitChar d :: (digitStr ds ++ '.' :: digitStr fp) := by
    simp [digitStr]
  have h2 : takeDigits (digitChar d :: (digitStr ds ++ '.' :: digitStr fp)) =
      (digitStr (d :: ds), '.' :: digitStr fp) := by
    rw [← List.cons_append, show digitChar d :: digitStr ds = digitStr (d :: ds) from rfl,
      takeDigits_digitStr_dot]
  have h3 : (digitStr (d :: ds)).isEmpty = false := by simp [digitStr]
  unfold pyFloat?
  rw [h1]
  simp only [parseSign_digit_head, h2, takeDigits_digitStr_nil, h3, parseExp,
    Bool.false_and, Bool.false_eq_true, if_false]
  rw [digitsVal_digitStr, digitsVal_digitStr]
  simp [digitStr]

/-- `float` on a pure digit string returns its exact value. -/
theorem pyFloat_digitStr_int (ds : List (Fin 10)) (h : ds ≠ []) :
    pyFloat? (digitStr ds) = some (natOfDigits ds : ℚ) := by
  obtain ⟨d, tl, rfl⟩ := List.exists_cons_of_ne_nil h
  have h1 : digitStr (d :: tl) = digitChar d :: digitStr tl := by simp [digitStr]
  have h2 : takeDigits (digitChar d :: digitStr tl) = (digitStr (d :: tl), []) := by
    rw [show digitChar d :: digitStr tl = digitStr (d :: tl) from rfl, takeDigits_digitStr_nil]
  have h3 : (digitStr (d :: tl)).isEmpty = false := by simp [digitStr]
  unfold pyFloat?
  rw [h1]
  simp only [parseSign_digit_head, h2, h3, parseExp, Bool.false_eq_true, if_false]
  rw [digitsVal_digitStr]
  simp

/-- C8, counterexample to the claim as stated: `"1.5"` is a valid numeric
string using `.` as the decimal separator with value `3/2`, yet the
normalization strips the dot as a thousands separator and yields `15`;
moreover `"12.34.56"` is not numeric at all, yet the normalization yields
`123456` rather than absence. -/
theorem normalize_numeric_counterexample :
    FormatChecker.is_numeric "1.5" = true ∧
    pyFloat? "1.5".data = some (3 / 2) ∧
    ImmoweltAt.normalize_numeric "1.5".data = some 15 ∧
    ¬ (15 : ℚ) = 3 / 2 ∧
    FormatChecker.is_numeric "12.34.56" = false ∧
    ImmoweltAt.normalize_numeric "12.34.56".data = some 123456 := by
  have h15 : pyFloat? "1.5".data = some (3 / 2) := by
    rw [show "1.5".data = digitStr [⟨1, by norm_num⟩] ++ '.' :: digitStr [⟨5, by norm_num⟩]
      from by decide]
    rw [pyFloat_digitStr _ _ (by simp)]
    norm_num [natOfDigits]
  have hfifteen : pyFloat? (ImmoweltAt.normalizeToken "1.5".data) = some 15 := by
    rw [show ImmoweltAt.normalizeToken "1.5".data =
      digitStr [⟨1, by norm_num⟩, ⟨5, by norm_num⟩] from by decide]
    rw [pyFloat_digitStr_int _ (by simp)]
    norm_num [natOfDigits]
  have hbig : pyFloat? (ImmoweltAt.normalizeToken "12.34.56".data) = some 123456 := by
    rw [show ImmoweltAt.normalizeToken "12.34.56".data =
      digitStr [⟨1, by norm_num⟩, ⟨2, by norm_num⟩, ⟨3, by norm_num⟩, ⟨4, by norm_num⟩,
        ⟨5, by norm_num⟩, ⟨6, by norm_num⟩] from by decide]
    rw [pyFloat_digitStr_int _ (by simp)]
    norm_num [natOfDigits]
  refine ⟨?_, h15, ?_, by norm_num, by decide, ?_⟩
  · unfold FormatChecker.is_numeric
    rw [h15]
    rfl
  · unfold ImmoweltAt.normalize_numeric FormatChecker.is_numeric ImmoweltAt.pyFloatVal
    rw [show (String.mk (ImmoweltAt.normalizeToken "1.5".data)).data =
      ImmoweltAt.normalizeToken "1.5".data from rfl, hfifteen]
    rfl
  · unfold ImmoweltAt.normalize_numeric FormatChecker.is_numeric ImmoweltAt.pyFloatVal
    rw [show (String.mk (ImmoweltAt.normalizeToken "12.34.56".data)).data =
      ImmoweltAt.normalizeToken "12.34.56".data from rfl, hbig]
    rfl

/-- C8 amended: for every numeric string that uses `,` as the decimal
separator (`.` being reserved as a thousands separator by the adapters'
locale), the normalization returns its exact value; and whenever the
dot-stripped, comma-to-dot form of the token is not numeric, the
normalization returns `None` rather than raising. -/
theorem normalize_numeric_amended :
    (∀ (ip fp : List (Fin 10)), ip ≠ [] →
      ImmoweltAt.normalize_numeric (digitStr ip ++ ',' :: digitStr fp) =
        some ((natOfDigits ip : ℚ) + (natOfDigits fp : ℚ) / (10 : ℚ) ^ fp.length)) ∧
    (∀ tok : List Char,
      FormatChecker.is_numeric ⟨ImmoweltAt.normalizeToken tok⟩ = false →
      ImmoweltAt.normalize_numeric tok = none) := by
  constructor
  · intro ip fp h
    have hfd : ∀ ds : List (Fin 10),
        (digitStr ds).filter (fun c => c ≠ '.') = digitStr ds := by
      intro ds
      rw [List.filter_eq_self]
      intro a ha
      obtain ⟨d, _, rfl⟩ := List.mem_map.mp ha
      simpa using (digitChar_facts d).2.1
    have hmd : ∀ ds : List (Fin 10),
        (digitStr ds).map (fun c => if c = ',' then '.' else c) = digitStr ds := by
      intro ds
      induction ds with
      | nil => rfl
      | cons d ds ih =>
        simp only [digitStr, List.map_cons] at ih ⊢
        simp [(digitChar_facts d).2.2.1, ih]
    have hnorm : ImmoweltAt.normalizeToken (digitStr ip ++ ',' :: digitStr fp) =
        digitStr ip ++ '.' :: digitStr fp := by
      unfold ImmoweltAt.normalizeToken
      rw [List.filter_append, List.filter_cons, List.map_append, hfd, hfd]
      simp [hmd]
    unfold ImmoweltAt.normalize_numeric
    rw [hnorm]
    have hnum : FormatChecker.is_numeric ⟨digitStr ip ++ '.' :: digitStr fp⟩ = true := by
      unfold FormatChecker.is_numeric
      rw [show (String.mk (digitStr ip ++ '.' :: digitStr fp)).data =
        digitStr ip ++ '.' :: digitStr fp from rfl, pyFloat_digitStr ip fp h]
      rfl
    rw [hnum]
    simp only [if_true]
    unfold ImmoweltAt.pyFloatVal
    rw [pyFloat_digitStr ip fp h]
    rfl
  · intro tok hfalse
    unfold ImmoweltAt.normalize_numeric
    rw [hfalse]
    simp

/-- Witness for C8 amended at the comma-decimal token `"12,5"`: the
normalization returns exactly `25/2`. -/
theorem normalize_numeric_amended_witness :
    ImmoweltAt.normalize_numeric "12,5".data = some (25 / 2) := by
  have h := normalize_numeric_amended.1 [⟨1, by norm_num⟩, ⟨2, by norm_num⟩]
    [⟨5, by norm_num⟩] (by simp)
  have he : "12,5".data =
      digitStr [⟨1, by norm_num⟩, ⟨2, by norm_num⟩] ++ ',' :: digitStr [⟨5, by norm_num⟩] := by
    decide
  rw [he, h]
  norm_num [natOfDigits]

/-! ### Claim C1 -/

/-- Invariant of the `PostgresPipeline` state after the db items `done`
have been accepted: the counter equals the number of accepted items, the
pending buffer holds the last `done.length % 100` of them, full batches of
exactly 100 have been committed, and no accepted item has been lost. -/
def PipelineInv (p : PostgresPipeline) (done : List RealEstateDBItem) : Prop :=
  p.num_items = done.length ∧
  p.session.pending.length = done.length % 100 ∧
  p.session.committed.length = done.length / 100 ∧
  (∀ b ∈ p.session.committed, b.length = 100) ∧
  p.session.committed.flatten ++ p.session.pending = done

/-- `process_item` preserves the pipeline invariant on a convertible item. -/
theorem process_item_inv (p : PostgresPipeline) (d : RealEstate) (x : RealEstateDBItem)
    (done : List RealEstateDBItem) (hok : RealEstateDBItem.from_dict d = .ok x)
    (hinv : PipelineInv p done) : PipelineInv (p.process_item d).1 (done ++ [x]) := by
  obtain ⟨h1, h2, h3, h4, h5⟩ := hinv
  unfold PostgresPipeline.process_item
  rw [hok]
  simp only [PostgresPipeline.batch_size]
  by_cases hmod : (p.num_items + 1) % 100 = 0
  · rw [if_pos hmod]
    refine ⟨by simp [h1], ?_, ?_, ?_, ?_⟩
    · simp only [DBSession.commit, DBSession.add]
      simp only [List.length_nil, List.length_append, List.length_cons]
      omega
    · simp only [DBSession.commit, DBSession.add]
      simp only [List.length_append, List.length_cons, List.length_nil]
      rw [h1] at hmod
      simp [List.length_append]
      omega
    · intro b hb
      simp only [DBSession.commit, DBSession.add] at hb
      rcases List.mem_append.mp hb with hb | hb
      · exact h4 b hb
      · rw [List.mem_singleton.mp hb]
        rw [h1] at hmod
        simp [List.length_append]
        omega
    · simp only [DBSession.commit, DBSession.add]
      rw [List.flatten_append]
      simp [← List.append_assoc, h5]
  · rw [if_neg hmod]
    refine ⟨by simp [h1], ?_, ?_, h4, ?_⟩
    · simp only [DBSession.add, List.length_append, List.length_cons, List.length_nil]
      rw [h1] at hmod
      omega
    · simp only [DBSession.add]
      simp only [List.length_append, List.length_cons, List.length_nil]
      rw [h1] at hmod
      omega
    · simp only [DBSession.add]
      rw [← List.append_assoc, h5]

/-- Feeding any all-convertible item list through the pipeline preserves
the invariant, extending the accepted-item list by the converted rows. -/
theorem processAll_inv (items : List RealEstate) (p : PostgresPipeline)
    (done : List RealEstateDBItem) (hinv : PipelineInv p done)
    (hok : ∀ d ∈ items, (RealEstateDBItem.from_dict d).isOk = true) :
    PipelineInv (p.processAll items)
      (done ++ items.filterMap fun d => (RealEstateDBItem.from_dict d).toOption) := by
  induction items generalizing p done with
  | nil => simpa [PostgresPipeline.processAll] using hinv
  | cons d rest ih =>
    obtain ⟨x, hx⟩ : ∃ x, RealEstateDBItem.from_dict d = .ok x := by
      have h := hok d (by simp)
      cases hfd : RealEstateDBItem.from_dict d with
      | error e => rw [hfd] at h; simp [Except.isOk, Except.toBool] at h
      | ok x => exact ⟨x, rfl⟩
    have hstep := process_item_inv p d x done hx hinv
    have hrest := ih ((p.process_item d).1) (done ++ [x]) hstep
      (fun e he => hok e (by simp [he]))
    have hfold : (p.processAll (d :: rest)) = ((p.process_item d).1).processAll rest := by
      simp [PostgresPipeline.processAll]
    rw [hfold]
    simpa [hx, Except.toOption, List.filterMap_cons] using hrest

/-- All-convertible item lists convert one-for-one. -/
theorem filterMap_toOption_length (items : List RealEstate)
    (hok : ∀ d ∈ items, (RealEstateDBItem.from_dict d).isOk = true) :
    (items.filterMap fun d => (RealEstateDBItem.from_dict d).toOption).length =
      items.length := by
  induction items with
  | nil => rfl
  | cons d rest ih =>
    obtain ⟨x, hx⟩ : ∃ x, RealEstateDBItem.from_dict d = .ok x := by
      have h := hok d (by simp)
      cases hfd : RealEstateDBItem.from_dict d with
      | error e => rw [hfd] at h; simp [Except.isOk, Except.toBool] at h
      | ok x => exact ⟨x, rfl⟩
    have ihr := ih (fun e he => hok e (by simp [he]))
    rw [List.filterMap_cons, hx]
    show (x :: rest.filterMap fun e => (RealEstateDBItem.from_dict e).toOption).length =
      rest.length + 1
    rw [List.length_cons, ihr]

/-- C1: feeding `n` convertible records one by one through
`PostgresPipeline.process_item` starting from a fresh pipeline commits one
full batch of exactly 100 rows after every 100th record (`n / 100` batches
in total), leaves the remaining `n % 100` rows buffered, and `close_spider`
commits exactly that remainder as one final batch, after which the
committed batches joined together are precisely the converted rows of all
accepted records in order — no accepted record is lost. -/
theorem postgres_pipeline_batching (items : List RealEstate)
    (hok : ∀ d ∈ items, (RealEstateDBItem.from_dict d).isOk = true) :
    (PostgresPipeline.init.processAll items).num_items = items.length ∧
    (PostgresPipeline.init.processAll items).session.committed.length = items.length / 100 ∧
    (∀ b ∈ (PostgresPipeline.init.processAll items).session.committed, b.length = 100) ∧
    (PostgresPipeline.init.processAll items).session.pending.length = items.length % 100 ∧
    (PostgresPipeline.init.processAll items).close_spider.committed =
      (PostgresPipeline.init.processAll items).session.committed ++
        [(PostgresPipeline.init.processAll items).session.pending] ∧
    (PostgresPipeline.init.processAll items).close_spider.committed.flatten =
      items.filterMap fun d => (RealEstateDBItem.from_dict d).toOption := by
  have hbase : PipelineInv PostgresPipeline.init [] := by
    refine ⟨rfl, rfl, rfl, ?_, rfl⟩
    intro b hb
    simp [PostgresPipeline.init] at hb
  have h := processAll_inv items PostgresPipeline.init [] hbase hok
  rw [List.nil_append] at h
  obtain ⟨h1, h2, h3, h4, h5⟩ := h
  have hlen := filterMap_toOption_length items hok
  refine ⟨by rw [h1, hlen], by rw [h3, hlen], h4, by rw [h2, hlen], rfl, ?_⟩
  have hcs : ((PostgresPipeline.init.processAll items).close_spider).committed =
      (PostgresPipeline.init.processAll items).session.committed ++
        [(PostgresPipeline.init.processAll items).session.pending] := rfl
  rw [hcs, List.flatten_append]
  simpa using h5

/-- Witness for C1 at 250 concrete records: 2 full batches of 100 are
committed during processing, 50 rows stay buffered, and the close-time
commit flushes exactly those 50, losing nothing. -/
theorem postgres_pipeline_batching_witness :
    (PostgresPipeline.init.processAll
        (List.replicate 250 sampleRealEstateDict)).session.committed.length = 2 ∧
    (∀ b ∈ (PostgresPipeline.init.processAll
        (List.replicate 250 sampleRealEstateDict)).session.committed, b.length = 100) ∧
    (PostgresPipeline.init.processAll
        (List.replicate 250 sampleRealEstateDict)).session.pending.length = 50 ∧
    (PostgresPipeline.init.processAll
        (List.replicate 250 sampleRealEstateDict)).close_spider.committed.flatten =
      (List.replicate 250 sampleRealEstateDict).filterMap
        (fun d => (RealEstateDBItem.from_dict d).toOption) := by
  have hok : ∀ d ∈ List.replicate 250 sampleRealEstateDict,
      (RealEstateDBItem.from_dict d).isOk = true := by
    intro d hd
    rw [List.eq_of_mem_replicate hd]
    rfl
  have h := postgres_pipeline_batching (List.replicate 250 sampleRealEstateDict) hok
  refine ⟨?_, h.2.2.1, ?_, h.2.2.2.2.2⟩
  · have h2 := h.2.1
    rw [List.length_replicate] at h2
    norm_num at h2
    exact h2
  · have h4 := h.2.2.2.1
    rw [List.length_replicate] at h4
    norm_num at h4
    exact h4

/-- Witness for C10 at the URL segment `7090-braine-le-comte` from the
source's own comment: the segment carries four consecutive digits, so
`zip_code` raises `IndexError`. -/
theorem realo_be_zip_code_spec_witness :
    RealoBe.zip_code "7090-braine-le-comte".data "Burst".data = .error .indexError := by
  apply (realo_be_zip_code_spec "7090-braine-le-comte".data "Burst".data).2.1
  left
  exact ⟨[], "-braine-le-comte".data, '7', '0', '9', '0', by decide, by decide, by decide,
    by decide, by decide⟩

end RealEstateScrapers
